import Mathlib

/-!
Shallow embedding of the scoring engine of `anketiraj-me-api`
(`index_calculator.py`, together with the validating `/calculate` handler of
`api.py`), and proofs settling the frozen claims about it.

Modelling conventions:
* Python floats are modelled as exact rationals (`ℚ`); every quantity the
  claims speak about is finite by construction, and overflow/NaN behaviour of
  IEEE floats is outside the scope of the claims.
* The transcendental primitives used by the code (`math.sqrt`, `math.atan2`,
  `np.std` with `ddof = 0` and `ddof = 1`, and the constant `math.pi`) are
  abstracted as the parameter structure `RealFns`; theorems that need facts
  about them (non-negativity of `sqrt` and of a standard deviation) take those
  facts as hypotheses, which the genuine real functions satisfy.
* Python dictionaries with optional keys are modelled as structures of
  `Option`-typed fields; `d.get(k, v)` becomes `Option.getD`; the insertion
  ordered dict `hoverCounts` becomes an association list `List (String × ℚ)`.
* Python truthiness tests on strings/lists (`if user_id:`, `if hover_counts:`)
  are modelled by explicit emptiness tests, matching CPython semantics for the
  types at hand.
-/

namespace Anketiraj

/-- Rational stand-ins for the real-valued primitives used by the Python code:
`math.sqrt`, `math.atan2`, `np.std(·)` (population, `ddof = 0`),
`np.std(·, ddof=1)` (sample) and the constant `math.pi`. -/
structure RealFns where
  sqrt : ℚ → ℚ
  atan2 : ℚ → ℚ → ℚ
  std : List ℚ → ℚ
  stdSamp : List ℚ → ℚ
  pi : ℚ

/-- One trajectory point of the wire format (`{x, y, step, normalizedTime}`).
The code reads only `x` and `y`. -/
structure TrajPoint where
  x : ℚ
  y : ℚ
  step : ℚ
  normalizedTime : ℚ
deriving DecidableEq

/-- The `metrics.deviation` sub-record; every field optional. -/
structure Deviation where
  maxDeviationPositive : Option ℚ
  maxDeviationNegative : Option ℚ
  aucPositive : Option ℚ
  aucNegative : Option ℚ
deriving DecidableEq

def Deviation.empty : Deviation := ⟨none, none, none, none⟩

/-- The `metrics.velocity` sub-record; the last two fields are part of the
wire shape but never read by the code. -/
structure Velocity where
  averageVelocityPxPerSec : Option ℚ
  maximalVelocityPxPerSec : Option ℚ
  averageVelocity : Option ℚ
  maximalVelocity : Option ℚ
deriving DecidableEq

def Velocity.empty : Velocity := ⟨none, none, none, none⟩

/-- The `metrics.complexity` sub-record. -/
structure Complexity where
  angleEntropy : Option ℚ
  initiationTimeMs : Option ℚ
deriving DecidableEq

def Complexity.empty : Complexity := ⟨none, none⟩

/-- The `metrics.hover` sub-record: `hoverCounts` is a label-to-count mapping,
`totalHovers` a number supplied by the producer. -/
structure Hover where
  hoverCounts : Option (List (String × ℚ))
  totalHovers : Option ℚ
deriving DecidableEq

def Hover.empty : Hover := ⟨none, none⟩

/-- The `metrics` section; each sub-record may be absent. -/
structure Metrics where
  deviation : Option Deviation
  velocity : Option Velocity
  complexity : Option Complexity
  hover : Option Hover
deriving DecidableEq

def Metrics.empty : Metrics := ⟨none, none, none, none⟩

/-- The `metadata` section. -/
structure Metadata where
  userId : Option String
  surveyId : Option String
  questionId : Option String
  timestamp : Option String
  selectedResponse : Option String
deriving DecidableEq

def Metadata.empty : Metadata := ⟨none, none, none, none, none⟩

/-- A telemetry record as received by the engine: any of the three top-level
sections may be absent from the input dictionary. -/
structure RecordData where
  metadata : Option Metadata
  trajectory : Option (List TrajPoint)
  metrics : Option Metrics
deriving DecidableEq

/-- The dictionary returned by `calculate_trajectory_metrics`. -/
structure TrajMetrics where
  xFlips : ℕ
  yFlips : ℕ
  averageDeviation : ℚ
  trajectoryLength : ℚ
  trajectorySmoothness : ℚ
deriving DecidableEq

/-- The direction-change count of `index_calculator.py` lines 68–81: for each
interior index, count a flip when consecutive displacements have a negative
product. -/
def countFlips : List ℚ → ℕ
  | a :: b :: c :: rest => (if (b - a) * (c - b) < 0 then 1 else 0) + countFlips (b :: c :: rest)
  | _ => 0

/-- Euclidean lengths of the consecutive segments of a trajectory
(lines 103–107). -/
def segLengths (F : RealFns) : List TrajPoint → List ℚ
  | a :: b :: rest => F.sqrt ((b.x - a.x) ^ 2 + (b.y - a.y) ^ 2) :: segLengths F (b :: rest)
  | _ => []

/-- Heading angles of the consecutive segments (lines 110–115):
`atan2 dy dx` per segment. -/
def segAngles (F : RealFns) : List TrajPoint → List ℚ
  | a :: b :: rest => F.atan2 (b.y - a.y) (b.x - a.x) :: segAngles F (b :: rest)
  | _ => []

/-- Absolute differences of consecutive list elements (line 119). -/
def absDiffs : List ℚ → List ℚ
  | a :: b :: rest => |b - a| :: absDiffs (b :: rest)
  | _ => []

/-- `IndexCalculator.calculate_trajectory_metrics` (lines 44–131): geometric
shape metrics of a trajectory.  Fewer than two points yields the degenerate
result; otherwise flips, mean perpendicular distance of interior points to the
straight start-to-end line (guarded by a positive line length), total path
length, and an angle-variance smoothness. -/
def calculate_trajectory_metrics (F : RealFns) (trajectory : List TrajPoint) : TrajMetrics :=
  match trajectory with
  | [] => ⟨0, 0, 0, 0, 1⟩
  | [_] => ⟨0, 0, 0, 0, 1⟩
  | p0 :: p1 :: rest =>
    let pts := p0 :: p1 :: rest
    let x_flips := countFlips (pts.map TrajPoint.x)
    let y_flips := countFlips (pts.map TrajPoint.y)
    let x_start := p0.x
    let y_start := p0.y
    let pLast := (p1 :: rest).getLast (List.cons_ne_nil _ _)
    let x_end := pLast.x
    let y_end := pLast.y
    let line_length := F.sqrt ((x_end - x_start) ^ 2 + (y_end - y_start) ^ 2)
    let interior := (p1 :: rest).dropLast
    let deviations :=
      if 0 < line_length then
        interior.map (fun p =>
          |(y_end - y_start) * p.x - (x_end - x_start) * p.y +
            x_end * y_start - y_end * x_start| / line_length)
      else []
    let avg_deviation := if deviations = [] then 0 else deviations.sum / (deviations.length : ℚ)
    let trajectory_length := (segLengths F pts).sum
    let angles := segAngles F pts
    let smoothness :=
      if 1 < angles.length then max 0 (1 - F.std (absDiffs angles) / F.pi)
      else 1
    ⟨x_flips, y_flips, avg_deviation, trajectory_length, smoothness⟩

/-- `dict.get(k, d)` on an association list (Python dict keys are unique, so
first-match lookup is dict lookup). -/
def lookupD (l : List (String × ℚ)) (k : String) (d : ℚ) : ℚ :=
  match l with
  | [] => d
  | (k', v) :: t => if k = k' then v else lookupD t k d

/-- The hover-ratio computation of `calculate_sci` (lines 170–180): when the
`hoverCounts` mapping is non-empty, the total is the sum of its values, and
the ratio is the non-selected share of that total (0 when the total is not
positive); otherwise 0. -/
def hoverRatio (hover : Hover) (selected_response : String) : ℚ :=
  let hover_counts := hover.hoverCounts.getD []
  if hover_counts = [] then 0
  else
    let total_hovers := (hover_counts.map Prod.snd).sum
    let selected_hovers := lookupD hover_counts selected_response 0
    let non_selected_hovers := total_hovers - selected_hovers
    if 0 < total_hovers then non_selected_hovers / total_hovers else 0

/-- `IndexCalculator.calculate_sci` (lines 137–209): the Survey Conflictuality
Index.  Deviation/AUC magnitudes, flips, mean deviation, a velocity factor and
the hover ratio are each normalised (clamped above at 1) and combined by a
weighted sum scaled to 100.  No clamping is applied after the sum. -/
def calculate_sci (F : RealFns) (data : RecordData) : ℚ :=
  let metrics := data.metrics.getD Metrics.empty
  let trajectory := data.trajectory.getD []
  let metadata := data.metadata.getD Metadata.empty
  let deviation := metrics.deviation.getD Deviation.empty
  let velocity := metrics.velocity.getD Velocity.empty
  let hover := metrics.hover.getD Hover.empty
  let max_dev_pos := deviation.maxDeviationPositive.getD 0
  let max_dev_neg := |deviation.maxDeviationNegative.getD 0|
  let auc_pos := deviation.aucPositive.getD 0
  let auc_neg := |deviation.aucNegative.getD 0|
  let avg_velocity := velocity.averageVelocityPxPerSec.getD 0
  let traj_metrics := calculate_trajectory_metrics F trajectory
  let avg_deviation := traj_metrics.averageDeviation
  let selected_response := metadata.selectedResponse.getD ""
  let hover_ratio := hoverRatio hover selected_response
  let total_max_dev := max_dev_pos + max_dev_neg
  let total_auc := auc_pos + auc_neg
  let total_flips : ℚ := ((traj_metrics.xFlips : ℚ) + (traj_metrics.yFlips : ℚ))
  let norm_max_dev := min (total_max_dev / 100) 1
  let norm_auc := min (total_auc / 500) 1
  let norm_flips := min (total_flips / 20) 1
  let norm_avg_dev := min (avg_deviation / 50) 1
  let norm_velocity := 1 - min (avg_velocity / 2000) 1
  let norm_hover := hover_ratio
  let sci_raw :=
    0.25 * norm_flips + 0.20 * norm_max_dev + 0.20 * norm_auc +
    0.15 * norm_avg_dev + 0.10 * norm_velocity + 0.10 * norm_hover
  sci_raw * 100

/-- The unpenalised engagement score of `calculate_uei` (lines 229–290): the
maximum of the "confident" and "exploratory" engagement sub-scores.  Note the
leaf defaults used here: average velocity 500, maximal velocity 1000, angle
entropy 1, whereas the deviation leaves default to 0. -/
def uei_raw_score (F : RealFns) (data : RecordData) : ℚ :=
  let metrics := data.metrics.getD Metrics.empty
  let trajectory := data.trajectory.getD []
  let deviation := metrics.deviation.getD Deviation.empty
  let velocity := metrics.velocity.getD Velocity.empty
  let complexity := metrics.complexity.getD Complexity.empty
  let max_dev_pos := deviation.maxDeviationPositive.getD 0
  let max_dev_neg := |deviation.maxDeviationNegative.getD 0|
  let auc_pos := deviation.aucPositive.getD 0
  let auc_neg := |deviation.aucNegative.getD 0|
  let avg_velocity := velocity.averageVelocityPxPerSec.getD 500
  let max_velocity := velocity.maximalVelocityPxPerSec.getD 1000
  let angle_entropy := complexity.angleEntropy.getD 1
  let traj_metrics := calculate_trajectory_metrics F trajectory
  let trajectory_length := traj_metrics.trajectoryLength
  let smoothness := traj_metrics.trajectorySmoothness
  let total_max_dev := max_dev_pos + max_dev_neg
  let total_auc := auc_pos + auc_neg
  let directness := 1 - min (total_max_dev / 100) 1
  let smoothness_norm := smoothness
  let not_too_slow := min (avg_velocity / 1000) 1
  let decisiveness := min (max_velocity / 2000) 1
  let confident_engagement := (directness + smoothness_norm + not_too_slow + decisiveness) / 4
  let norm_entropy := min (angle_entropy / 3) 1
  let norm_auc := min (total_auc / 500) 1
  let norm_length := min (trajectory_length / 5) 1
  let exploration := (norm_entropy + norm_auc + norm_length) / 3
  let deliberation := 1 - min (avg_velocity / 1000) 1
  let exploratory_engagement := exploration * 0.7 + deliberation * 0.3
  max confident_engagement exploratory_engagement

/-- The speed penalty of `calculate_uei` (lines 292–296): factor 0.7 when
`initiationTimeMs` (default 200) is below 100, else 1. -/
def speed_penalty (data : RecordData) : ℚ :=
  let complexity := (data.metrics.getD Metrics.empty).complexity.getD Complexity.empty
  let initiation_time := complexity.initiationTimeMs.getD 200
  if initiation_time < 100 then 0.7 else 1

/-- `IndexCalculator.calculate_uei` (lines 215–304): penalised engagement
score scaled to 100 and clamped to [0, 100]. -/
def calculate_uei (F : RealFns) (data : RecordData) : ℚ :=
  let uei := uei_raw_score F data * speed_penalty data * 100
  max 0 (min 100 uei)

/-- One history entry (lines 319–325): the per-question scores with identity
fields defaulted to the empty string. -/
structure HistEntry where
  sci : ℚ
  uei : ℚ
  userId : String
  questionId : String
  timestamp : String
deriving DecidableEq

/-- `IndexCalculator.add_to_history` (lines 310–325): append one entry built
from the scores and the metadata. -/
def add_to_history (sci uei : ℚ) (metadata : Metadata) (hist : List HistEntry) :
    List HistEntry :=
  hist ++ [{ sci := sci, uei := uei,
             userId := metadata.userId.getD "",
             questionId := metadata.questionId.getD "",
             timestamp := metadata.timestamp.getD "" }]

/-- The history filter shared by `calculate_sei` and `get_history`
(lines 339–343, 446–448): Python's `if user_id:` keeps the whole history for
`None` and for the empty string, and filters by equality otherwise. -/
def filterHistory : Option String → List HistEntry → List HistEntry
  | some uid, hist => if uid = "" then hist else hist.filter (fun h => h.userId == uid)
  | none, hist => hist

/-- The aggregation body of `calculate_sei` (lines 345–396) applied to an
already-filtered history: 50 on empty input, otherwise a weighted sum of mean
UEI/SCI, a consistency factor from the sample coefficient of variation of UEI,
and three threshold ratios, scaled to 100. -/
def seiAggregate (F : RealFns) (history : List HistEntry) : ℚ :=
  if history = [] then 50
  else
    let sci_values := history.map HistEntry.sci
    let uei_values := history.map HistEntry.uei
    let cumulative_mean_uei := uei_values.sum / (uei_values.length : ℚ)
    let cumulative_mean_sci := sci_values.sum / (sci_values.length : ℚ)
    let cumulative_cv_uei :=
      if 1 < uei_values.length then
        if 0 < cumulative_mean_uei then F.stdSamp uei_values / cumulative_mean_uei else 0
      else 0
    let consistency := 1 / (1 + cumulative_cv_uei)
    let high_engagement_ratio :=
      ((uei_values.countP (fun u => decide (60 < u)) : ℚ) / (uei_values.length : ℚ))
    let low_engagement_ratio :=
      ((uei_values.countP (fun u => decide (u < 30)) : ℚ) / (uei_values.length : ℚ))
    let balance :=
      (((sci_values.zip uei_values).countP
          (fun p => decide (50 < p.1) && decide (60 < p.2)) : ℚ) / (uei_values.length : ℚ))
    let norm_uei := cumulative_mean_uei / 100
    let norm_sci := cumulative_mean_sci / 100
    let sei_raw :=
      0.40 * norm_uei + 0.20 * norm_sci + 0.15 * consistency +
      0.10 * high_engagement_ratio + 0.10 * balance + 0.05 * (1 - low_engagement_ratio)
    sei_raw * 100

/-- `IndexCalculator.calculate_sei` (lines 327–396): filter the stored history
by the optional user id, then aggregate. -/
def calculate_sei (F : RealFns) (user_id : Option String) (histAll : List HistEntry) : ℚ :=
  seiAggregate F (filterHistory user_id histAll)

/-- Python's `round(x, 2)` on the exact rational value: scale by 100 and round
half to even. -/
def roundHalfEven (x : ℚ) : ℤ :=
  let f := ⌊x⌋
  let frac := x - (f : ℚ)
  if frac < 1 / 2 then f
  else if 1 / 2 < frac then f + 1
  else if f % 2 = 0 then f else f + 1

/-- Rounding to two decimal places as Python's `round(·, 2)` does. -/
def pyRound2 (x : ℚ) : ℚ := (roundHalfEven (x * 100) : ℚ) / 100

/-- The result dictionary of `calculate_all`. -/
structure Scores where
  SCI : ℚ
  UEI : ℚ
  SEI : ℚ
deriving DecidableEq

/-- `IndexCalculator.calculate_all` (lines 402–430): compute SCI and UEI,
optionally append them to the history, compute SEI over the (possibly updated)
history filtered by the record's user id, and return the rounded triple
together with the new history state. -/
def calculate_all (F : RealFns) (data : RecordData) (update_history : Bool)
    (hist : List HistEntry) : Scores × List HistEntry :=
  let sci := calculate_sci F data
  let uei := calculate_uei F data
  let hist' :=
    if update_history then add_to_history sci uei (data.metadata.getD Metadata.empty) hist
    else hist
  let user_id := (data.metadata.getD Metadata.empty).userId
  let sei := calculate_sei F user_id hist'
  (⟨pyRound2 sci, pyRound2 uei, pyRound2 sei⟩, hist')

/-- `IndexCalculator.get_history` (lines 436–448): same truthiness-guarded
filtering as `calculate_sei`. -/
def get_history (user_id : Option String) (hist : List HistEntry) : List HistEntry :=
  filterHistory user_id hist

/-- Outcome of the `/calculate` HTTP handler, reduced to what the claims need:
a success payload or a rejected request. -/
inductive ApiResult where
  | ok : Scores → ApiResult
  | badRequest : String → ApiResult
deriving DecidableEq

/-- The `/calculate` handler of `api.py` (lines 44–109): reject when no JSON
body or when one of the three required top-level sections is missing, and only
otherwise invoke `calculate_all` with `update_history=True`. -/
def api_calculate (F : RealFns) (data : Option RecordData) (hist : List HistEntry) :
    ApiResult × List HistEntry :=
  match data with
  | none => (ApiResult.badRequest "No JSON data provided", hist)
  | some d =>
    let missing_fields :=
      (if d.metadata.isSome then [] else ["metadata"]) ++
      (if d.trajectory.isSome then [] else ["trajectory"]) ++
      (if d.metrics.isSome then [] else ["metrics"])
    if missing_fields = [] then
      let r := calculate_all F d true hist
      (ApiResult.ok r.1, r.2)
    else (ApiResult.badRequest "Missing required fields", hist)

/-- A concrete instance of the abstract primitives, used to evaluate the
engine on inputs whose control flow never consults them (empty trajectories,
histories of at most one entry); it satisfies the non-negativity facts the
general theorems assume of the genuine real functions. -/
def F0 : RealFns :=
  { sqrt := fun x => |x|
    atan2 := fun _ _ => 0
    std := fun _ => 0
    stdSamp := fun _ => 0
    pi := 355 / 113 }

/-! ### Generic helper lemmas -/

/-- Clamping below a ceiling keeps non-negative inputs in `[0, 1]`. -/
lemma min_one_nonneg (x : ℚ) (hx : 0 ≤ x) : 0 ≤ min x 1 := le_min hx zero_le_one

lemma min_one_le_one (x : ℚ) : min x 1 ≤ 1 := min_le_right x 1

lemma one_sub_min_one_nonneg (x : ℚ) : 0 ≤ 1 - min x 1 := by
  have h := min_le_right x (1 : ℚ)
  linarith

lemma one_sub_min_one_le_one (x : ℚ) (hx : 0 ≤ x) : 1 - min x 1 ≤ 1 := by
  have h : (0 : ℚ) ≤ min x 1 := le_min hx zero_le_one
  linarith

lemma mean_nonneg (l : List ℚ) (h : ∀ x ∈ l, 0 ≤ x) : 0 ≤ l.sum / (l.length : ℚ) :=
  div_nonneg (List.sum_nonneg h) (Nat.cast_nonneg _)

lemma mean_le_100 (l : List ℚ) (h : ∀ x ∈ l, x ≤ 100) (hne : l ≠ []) :
    l.sum / (l.length : ℚ) ≤ 100 := by
  have hpos : (0 : ℚ) < (l.length : ℚ) := by
    exact_mod_cast List.length_pos.2 hne
  rw [div_le_iff₀ hpos]
  calc l.sum ≤ l.length • (100 : ℚ) := List.sum_le_card_nsmul l 100 h
    _ = 100 * (l.length : ℚ) := by rw [nsmul_eq_mul]; ring

lemma count_ratio_nonneg (k n : ℕ) : 0 ≤ (k : ℚ) / (n : ℚ) := by positivity

lemma count_ratio_le_one (k n : ℕ) (hkn : k ≤ n) (hn : 0 < n) : (k : ℚ) / (n : ℚ) ≤ 1 := by
  rw [div_le_one (by exact_mod_cast hn)]
  exact_mod_cast hkn

lemma lookupD_nonneg (l : List (String × ℚ)) (k : String) (h : ∀ p ∈ l, 0 ≤ p.2) :
    0 ≤ lookupD l k 0 := by
  induction l with
  | nil => simp [lookupD]
  | cons a t ih =>
    obtain ⟨k', v⟩ := a
    rw [lookupD]
    split
    · exact h (k', v) (List.mem_cons_self _ _)
    · exact ih (fun p hp => h p (List.mem_cons_of_mem _ hp))

lemma lookupD_le_sum (l : List (String × ℚ)) (k : String) (h : ∀ p ∈ l, 0 ≤ p.2) :
    lookupD l k 0 ≤ (l.map Prod.snd).sum := by
  induction l with
  | nil => simp [lookupD]
  | cons a t ih =>
    obtain ⟨k', v⟩ := a
    have htail : 0 ≤ (t.map Prod.snd).sum := by
      refine List.sum_nonneg ?_
      intro x hx
      obtain ⟨p, hp, rfl⟩ := List.mem_map.1 hx
      exact h p (List.mem_cons_of_mem _ hp)
    have hv : 0 ≤ v := h (k', v) (List.mem_cons_self _ _)
    rw [lookupD]
    split
    · simp only [List.map_cons, List.sum_cons]
      linarith
    · have := ih (fun p hp => h p (List.mem_cons_of_mem _ hp))
      simp only [List.map_cons, List.sum_cons]
      linarith

/-! ### Component bounds of the scoring functions -/

/-- The average-deviation branch of `calculate_trajectory_metrics` produces a
non-negative value: every deviation is an absolute value divided by a
(non-negative) `sqrt`. -/
lemma avgDev_ite_nonneg (b : Prop) [Decidable b] (g : TrajPoint → ℚ)
    (interior : List TrajPoint) (hg : ∀ p, 0 ≤ g p) :
    0 ≤ if (if b then interior.map g else []) = [] then (0 : ℚ)
        else (if b then interior.map g else []).sum /
          (((if b then interior.map g else []).length : ℚ)) := by
  by_cases hb : b
  · simp only [if_pos hb]
    split
    · exact le_refl (0 : ℚ)
    · refine div_nonneg (List.sum_nonneg ?_) (Nat.cast_nonneg _)
      intro x hx
      obtain ⟨p, _, rfl⟩ := List.mem_map.1 hx
      exact hg p
  · simp only [if_neg hb]
    norm_num

lemma averageDeviation_nonneg (F : RealFns) (hF : ∀ x, 0 ≤ F.sqrt x)
    (traj : List TrajPoint) :
    0 ≤ (calculate_trajectory_metrics F traj).averageDeviation := by
  match traj with
  | [] => simp [calculate_trajectory_metrics]
  | [p] => simp [calculate_trajectory_metrics]
  | p0 :: p1 :: rest =>
    simp only [calculate_trajectory_metrics]
    exact avgDev_ite_nonneg _ _ _ (fun p => div_nonneg (abs_nonneg _) (hF _))

/-- The hover ratio is always in `[0, 1]` when all hover counts are
non-negative. -/
lemma hoverRatio_mem (hover : Hover) (sel : String)
    (h : ∀ p ∈ hover.hoverCounts.getD [], 0 ≤ p.2) :
    0 ≤ hoverRatio hover sel ∧ hoverRatio hover sel ≤ 1 := by
  simp only [hoverRatio]
  split_ifs with he ht
  · exact ⟨le_refl 0, zero_le_one⟩
  · have h0 := lookupD_nonneg _ sel h
    have h1 := lookupD_le_sum _ sel h
    constructor
    · exact div_nonneg (by linarith) (le_of_lt ht)
    · rw [div_le_one ht]
      linarith
  · exact ⟨le_refl 0, zero_le_one⟩

/-- Arithmetic core of the SCI range bound: a weighted sum of six values in
`[0, 1]` with weights summing to 1, scaled by 100, lies in `[0, 100]`. -/
lemma sci_form_bounds (a b c d e f : ℚ)
    (ha0 : 0 ≤ a) (ha1 : a ≤ 1) (hb0 : 0 ≤ b) (hb1 : b ≤ 1)
    (hc0 : 0 ≤ c) (hc1 : c ≤ 1) (hd0 : 0 ≤ d) (hd1 : d ≤ 1)
    (he0 : 0 ≤ e) (he1 : e ≤ 1) (hf0 : 0 ≤ f) (hf1 : f ≤ 1) :
    0 ≤ (0.25 * a + 0.20 * b + 0.20 * c + 0.15 * d + 0.10 * e + 0.10 * f) * 100 ∧
      (0.25 * a + 0.20 * b + 0.20 * c + 0.15 * d + 0.10 * e + 0.10 * f) * 100 ≤ 100 := by
  constructor <;> linarith

/-- Sign constraints on the leaf values that the data model of the spec
implies: non-negative positive-deviation and positive-AUC components, a
non-negative average velocity, and non-negative hover counts. -/
def ValidRecord (r : RecordData) : Prop :=
  0 ≤ ((r.metrics.getD Metrics.empty).deviation.getD Deviation.empty).maxDeviationPositive.getD 0 ∧
  0 ≤ ((r.metrics.getD Metrics.empty).deviation.getD Deviation.empty).aucPositive.getD 0 ∧
  0 ≤ ((r.metrics.getD Metrics.empty).velocity.getD Velocity.empty).averageVelocityPxPerSec.getD 0 ∧
  ∀ p ∈ ((r.metrics.getD Metrics.empty).hover.getD Hover.empty).hoverCounts.getD [], 0 ≤ p.2

lemma sci_bounds (F : RealFns) (hF : ∀ x, 0 ≤ F.sqrt x) (r : RecordData)
    (hr : ValidRecord r) : 0 ≤ calculate_sci F r ∧ calculate_sci F r ≤ 100 := by
  obtain ⟨h1, h2, h3, h4⟩ := hr
  have hdev : 0 ≤ (calculate_trajectory_metrics F (r.trajectory.getD [])).averageDeviation :=
    averageDeviation_nonneg F hF _
  have hhov := hoverRatio_mem ((r.metrics.getD Metrics.empty).hover.getD Hover.empty)
    ((r.metadata.getD Metadata.empty).selectedResponse.getD "") h4
  simp only [calculate_sci]
  refine sci_form_bounds _ _ _ _ _ _ ?_ ?_ ?_ ?_ ?_ ?_ ?_ ?_ ?_ ?_ ?_ ?_
  · exact min_one_nonneg _ (by positivity)
  · exact min_one_le_one _
  · exact min_one_nonneg _ (div_nonneg (add_nonneg h1 (abs_nonneg _)) (by norm_num))
  · exact min_one_le_one _
  · exact min_one_nonneg _ (div_nonneg (add_nonneg h2 (abs_nonneg _)) (by norm_num))
  · exact min_one_le_one _
  · exact min_one_nonneg _ (div_nonneg hdev (by norm_num))
  · exact min_one_le_one _
  · exact one_sub_min_one_nonneg _
  · exact one_sub_min_one_le_one _ (div_nonneg h3 (by norm_num))
  · exact hhov.1
  · exact hhov.2

lemma uei_bounds (F : RealFns) (r : RecordData) :
    0 ≤ calculate_uei F r ∧ calculate_uei F r ≤ 100 := by
  simp only [calculate_uei]
  exact ⟨le_max_left _ _, max_le (by norm_num) (min_le_left _ _)⟩

/-- Arithmetic core of the SEI range bound. -/
lemma sei_form_bounds (su ss cv hr br lr : ℚ)
    (h1 : 0 ≤ su) (h2 : su ≤ 100) (h3 : 0 ≤ ss) (h4 : ss ≤ 100) (h5 : 0 ≤ cv)
    (h6 : 0 ≤ hr) (h7 : hr ≤ 1) (h8 : 0 ≤ br) (h9 : br ≤ 1)
    (h10 : 0 ≤ lr) (h11 : lr ≤ 1) :
    0 ≤ (0.40 * (su / 100) + 0.20 * (ss / 100) + 0.15 * (1 / (1 + cv)) +
        0.10 * hr + 0.10 * br + 0.05 * (1 - lr)) * 100 ∧
      (0.40 * (su / 100) + 0.20 * (ss / 100) + 0.15 * (1 / (1 + cv)) +
        0.10 * hr + 0.10 * br + 0.05 * (1 - lr)) * 100 ≤ 100 := by
  have hc0 : 0 ≤ 1 / (1 + cv) := by positivity
  have hc1 : 1 / (1 + cv) ≤ 1 := by
    rw [div_le_one (by linarith)]
    linarith
  constructor <;> linarith

lemma seiAggregate_bounds (F : RealFns) (hSt : ∀ l, 0 ≤ F.stdSamp l)
    (history : List HistEntry)
    (hh : ∀ e ∈ history, 0 ≤ e.sci ∧ e.sci ≤ 100 ∧ 0 ≤ e.uei ∧ e.uei ≤ 100) :
    0 ≤ seiAggregate F history ∧ seiAggregate F history ≤ 100 := by
  by_cases hne : history = []
  · subst hne
    simp only [seiAggregate, if_pos rfl]
    norm_num
  · have hmapu : history.map HistEntry.uei ≠ [] := by
      simpa using hne
    have hlen : 0 < (history.map HistEntry.uei).length := List.length_pos.2 hmapu
    simp only [seiAggregate, if_neg hne]
    refine sei_form_bounds _ _ _ _ _ _ ?_ ?_ ?_ ?_ ?_ ?_ ?_ ?_ ?_ ?_ ?_
    · refine mean_nonneg _ ?_
      intro x hx
      obtain ⟨e, he, rfl⟩ := List.mem_map.1 hx
      exact (hh e he).2.2.1
    · refine mean_le_100 _ ?_ hmapu
      intro x hx
      obtain ⟨e, he, rfl⟩ := List.mem_map.1 hx
      exact (hh e he).2.2.2
    · refine mean_nonneg _ ?_
      intro x hx
      obtain ⟨e, he, rfl⟩ := List.mem_map.1 hx
      exact (hh e he).1
    · refine mean_le_100 _ ?_ (by simpa using hne)
      intro x hx
      obtain ⟨e, he, rfl⟩ := List.mem_map.1 hx
      exact (hh e he).2.1
    · split_ifs with hA hB
      · exact div_nonneg (hSt _) hB.le
      · exact le_refl 0
      · exact le_refl 0
    · exact count_ratio_nonneg _ _
    · exact count_ratio_le_one _ _ (List.countP_le_length _) hlen
    · exact count_ratio_nonneg _ _
    · refine count_ratio_le_one _ _ ?_ hlen
      refine le_trans (List.countP_le_length _) ?_
      simp [List.length_zip]
    · exact count_ratio_nonneg _ _
    · exact count_ratio_le_one _ _ (List.countP_le_length _) hlen

lemma sei_bounds (F : RealFns) (hSt : ∀ l, 0 ≤ F.stdSamp l)
    (uid : Option String) (hist : List HistEntry)
    (hh : ∀ e ∈ filterHistory uid hist, 0 ≤ e.sci ∧ e.sci ≤ 100 ∧ 0 ≤ e.uei ∧ e.uei ≤ 100) :
    0 ≤ calculate_sei F uid hist ∧ calculate_sei F uid hist ≤ 100 :=
  seiAggregate_bounds F hSt (filterHistory uid hist) hh

/-! ### Concrete inputs used by counterexamples and witnesses -/

/-- A record with all three top-level sections present whose
`maxDeviationPositive` is −1000: every section the claim requires is there,
yet SCI is negative. -/
def cex1Rec : RecordData :=
  { metadata := some Metadata.empty
    trajectory := some []
    metrics := some { deviation := some { maxDeviationPositive := some (-1000)
                                          maxDeviationNegative := none
                                          aucPositive := none
                                          aucNegative := none }
                      velocity := none, complexity := none, hover := none } }

/-- A record satisfying the sign constraints of the data model. -/
def valRec : RecordData :=
  { metadata := some Metadata.empty
    trajectory := some []
    metrics := some { deviation := some ⟨some 10, some (-5), some 20, some (-30)⟩
                      velocity := some ⟨some 100, some 200, none, none⟩
                      complexity := some ⟨some 1, some 150⟩
                      hover := some ⟨some [("A", 2), ("B", 1)], some 3⟩ } }

/-- A record whose `trajectory` section is missing. -/
def cex2Rec : RecordData :=
  { metadata := some Metadata.empty, trajectory := none, metrics := some Metrics.empty }

/-- Assemble a record with all three sections and all four metrics
sub-records present, from the given leaves. -/
def mkRec (md : Option Metadata) (traj : Option (List TrajPoint))
    (dev : Deviation) (vel : Velocity) (comp : Complexity) (hov : Hover) : RecordData :=
  ⟨md, traj, some ⟨some dev, some vel, some comp, some hov⟩⟩

/-- Record with `initiationTimeMs` absent. -/
def cex3RecNone : RecordData :=
  mkRec (some Metadata.empty) (some []) Deviation.empty Velocity.empty
    ⟨none, none⟩ Hover.empty

/-- The same record with `initiationTimeMs` explicitly present as 0. -/
def cex3RecZero : RecordData :=
  mkRec (some Metadata.empty) (some []) Deviation.empty Velocity.empty
    ⟨none, some 0⟩ Hover.empty

/-- Hover data whose `totalHovers` field (6) disagrees with the sum of the
`hoverCounts` values (3). -/
def cex4Hover : Hover := ⟨some [("A", 2), ("B", 1)], some 6⟩

/-- A history entry owned by user `"A"` with scores that make SEI 100. -/
def cex6Entry : HistEntry := ⟨100, 100, "A", "q", "t"⟩

def cex6H1 : List HistEntry := [⟨10, 20, "u", "", ""⟩]

def cex6H2 : List HistEntry := [⟨30, 40, "x", "", ""⟩, ⟨10, 20, "u", "", ""⟩]

/-- A base record for the initiation-time scenario. -/
def cex8Rec : RecordData :=
  mkRec (some Metadata.empty) (some []) Deviation.empty Velocity.empty
    Complexity.empty Hover.empty

/-- A record whose metadata section is absent (hence no `userId`). -/
def cex10Rec : RecordData := ⟨none, some [], some Metrics.empty⟩

def cex10Hist : List HistEntry := [⟨10, 20, "A", "", ""⟩]

/-! ### C1 -/

/-- C1, counterexample: `cex1Rec` contains all three top-level sections, yet
`calculate_sci` returns −190, outside `[0, 100]` — the claim as stated (range
bound for *every* record with the three sections) is false, because SCI is
not clamped and the code never checks the sign of the deviation leaves. -/
theorem claim1_counterexample :
    cex1Rec.metadata.isSome = true ∧ cex1Rec.trajectory.isSome = true ∧
    cex1Rec.metrics.isSome = true ∧
    calculate_sci F0 cex1Rec = -190 ∧ calculate_sci F0 cex1Rec < 0 := by
  have h : calculate_sci F0 cex1Rec = -190 := by
    norm_num [calculate_sci, cex1Rec, Metadata.empty, Metrics.empty, Deviation.empty,
      Velocity.empty, Hover.empty, calculate_trajectory_metrics, hoverRatio]
  refine ⟨rfl, rfl, rfl, h, ?_⟩
  rw [h]
  norm_num

/-- C1 (amended): for every record whose leaves satisfy the sign constraints
of the data model (`ValidRecord`), SCI lies in `[0, 100]`; UEI lies in
`[0, 100]` for every record unconditionally; and SEI lies in `[0, 100]`
whenever every (user-filtered) history entry carries scores in `[0, 100]`.
The hypotheses on the abstract primitives hold of the genuine `math.sqrt`
and `np.std`. -/
theorem claim1_indices_in_range (F : RealFns) (hsqrt : ∀ x, 0 ≤ F.sqrt x)
    (hstd : ∀ l, 0 ≤ F.stdSamp l) (r : RecordData) (hr : ValidRecord r)
    (uid : Option String) (hist : List HistEntry)
    (hh : ∀ e ∈ filterHistory uid hist, 0 ≤ e.sci ∧ e.sci ≤ 100 ∧ 0 ≤ e.uei ∧ e.uei ≤ 100) :
    (0 ≤ calculate_sci F r ∧ calculate_sci F r ≤ 100) ∧
    (0 ≤ calculate_uei F r ∧ calculate_uei F r ≤ 100) ∧
    (0 ≤ calculate_sei F uid hist ∧ calculate_sei F uid hist ≤ 100) :=
  ⟨sci_bounds F hsqrt r hr, uei_bounds F r, sei_bounds F hstd uid hist hh⟩

/-- C1, witness: the amended theorem applied to a concrete valid record and
the empty history. -/
theorem claim1_indices_in_range_witness :
    ValidRecord valRec ∧
    ((0 ≤ calculate_sci F0 valRec ∧ calculate_sci F0 valRec ≤ 100) ∧
     (0 ≤ calculate_uei F0 valRec ∧ calculate_uei F0 valRec ≤ 100) ∧
     (0 ≤ calculate_sei F0 none [] ∧ calculate_sei F0 none [] ≤ 100)) := by
  have hv : ValidRecord valRec := by
    norm_num [ValidRecord, valRec]
  exact ⟨hv, claim1_indices_in_range F0 (fun x => abs_nonneg x) (fun l => le_refl 0)
    valRec hv none [] (by intro e he; simp [filterHistory] at he)⟩

/-! ### C2 -/

/-- C2, counterexample: on a record lacking the `trajectory` section,
`calculate_all` itself does not fail — it scores the record with defaults and
appends to the history, so state *is* mutated (history grows from 0 to 1
entries), contradicting the claim that the failure leaves no state change. -/
theorem claim2_counterexample :
    cex2Rec.trajectory = none ∧
    (calculate_all F0 cex2Rec true []).2.length = 1 := by
  constructor
  · rfl
  · rfl

/-- C2 (amended): the section validation lives in the `/calculate` HTTP
handler, not in `calculate_all`: for a body lacking any of the three required
sections the handler answers with the 400 rejection and the history is
returned exactly as it was — `calculate_all` is never invoked. -/
theorem claim2_api_rejects_missing_section (F : RealFns) (hist : List HistEntry)
    (d : RecordData)
    (h : d.metadata = none ∨ d.trajectory = none ∨ d.metrics = none) :
    api_calculate F (some d) hist = (ApiResult.badRequest "Missing required fields", hist) := by
  obtain ⟨md, tr, mt⟩ := d
  rcases h with h | h | h <;> subst h <;> simp [api_calculate]

/-- C2, witness: the amended theorem at the concrete trajectory-less record. -/
theorem claim2_api_rejects_missing_section_witness :
    cex2Rec.trajectory = none ∧
    api_calculate F0 (some cex2Rec) [] = (ApiResult.badRequest "Missing required fields", []) :=
  ⟨rfl, claim2_api_rejects_missing_section F0 [] cex2Rec (Or.inr (Or.inl rfl))⟩

/-! ### C3 -/

/-- C3, counterexample: two records identical except that `initiationTimeMs`
is absent in one and present as 0 in the other get different UEI (75 versus
52.5): the absent field defaults to 200 (no penalty), not to 0 (penalty). -/
theorem claim3_counterexample :
    calculate_uei F0 cex3RecNone = 75 ∧ calculate_uei F0 cex3RecZero = 52.5 ∧
    calculate_uei F0 cex3RecNone ≠ calculate_uei F0 cex3RecZero := by
  have h1 : calculate_uei F0 cex3RecNone = 75 := by
    norm_num [calculate_uei, uei_raw_score, speed_penalty, cex3RecNone, mkRec,
      Metadata.empty, Metrics.empty, Deviation.empty, Velocity.empty, Complexity.empty,
      Hover.empty, calculate_trajectory_metrics]
  have h2 : calculate_uei F0 cex3RecZero = 52.5 := by
    norm_num [calculate_uei, uei_raw_score, speed_penalty, cex3RecZero, mkRec,
      Metadata.empty, Metrics.empty, Deviation.empty, Velocity.empty, Complexity.empty,
      Hover.empty, calculate_trajectory_metrics]
  refine ⟨h1, h2, ?_⟩
  rw [h1, h2]
  norm_num

/-- C3 (amended): absence of a deviation leaf or of the `hoverCounts` mapping
is equivalent to presence as 0 / the empty mapping for both SCI and UEI, and
absence of `averageVelocityPxPerSec` is equivalent to presence as 0 for SCI;
but in the UEI computation the absent velocity/complexity leaves default to
500 (average velocity), 1000 (maximal velocity), 1 (angle entropy) and 200
(initiation time) instead of 0. -/
theorem claim3_leaf_defaults (F : RealFns) (md : Option Metadata)
    (traj : Option (List TrajPoint)) (dev : Deviation) (vel : Velocity)
    (comp : Complexity) (hov : Hover) :
    (calculate_sci F (mkRec md traj { dev with maxDeviationPositive := none } vel comp hov) =
      calculate_sci F (mkRec md traj { dev with maxDeviationPositive := some 0 } vel comp hov)) ∧
    (calculate_sci F (mkRec md traj { dev with maxDeviationNegative := none } vel comp hov) =
      calculate_sci F (mkRec md traj { dev with maxDeviationNegative := some 0 } vel comp hov)) ∧
    (calculate_sci F (mkRec md traj { dev with aucPositive := none } vel comp hov) =
      calculate_sci F (mkRec md traj { dev with aucPositive := some 0 } vel comp hov)) ∧
    (calculate_sci F (mkRec md traj { dev with aucNegative := none } vel comp hov) =
      calculate_sci F (mkRec md traj { dev with aucNegative := some 0 } vel comp hov)) ∧
    (calculate_sci F (mkRec md traj dev { vel with averageVelocityPxPerSec := none } comp hov) =
      calculate_sci F (mkRec md traj dev { vel with averageVelocityPxPerSec := some 0 } comp hov)) ∧
    (calculate_sci F (mkRec md traj dev vel comp { hov with hoverCounts := none }) =
      calculate_sci F (mkRec md traj dev vel comp { hov with hoverCounts := some [] })) ∧
    (calculate_uei F (mkRec md traj { dev with maxDeviationPositive := none } vel comp hov) =
      calculate_uei F (mkRec md traj { dev with maxDeviationPositive := some 0 } vel comp hov)) ∧
    (calculate_uei F (mkRec md traj { dev with maxDeviationNegative := none } vel comp hov) =
      calculate_uei F (mkRec md traj { dev with maxDeviationNegative := some 0 } vel comp hov)) ∧
    (calculate_uei F (mkRec md traj { dev with aucPositive := none } vel comp hov) =
      calculate_uei F (mkRec md traj { dev with aucPositive := some 0 } vel comp hov)) ∧
    (calculate_uei F (mkRec md traj { dev with aucNegative := none } vel comp hov) =
      calculate_uei F (mkRec md traj { dev with aucNegative := some 0 } vel comp hov)) ∧
    (calculate_uei F (mkRec md traj dev { vel with averageVelocityPxPerSec := none } comp hov) =
      calculate_uei F (mkRec md traj dev { vel with averageVelocityPxPerSec := some 500 } comp hov)) ∧
    (calculate_uei F (mkRec md traj dev { vel with maximalVelocityPxPerSec := none } comp hov) =
      calculate_uei F (mkRec md traj dev { vel with maximalVelocityPxPerSec := some 1000 } comp hov)) ∧
    (calculate_uei F (mkRec md traj dev vel { comp with angleEntropy := none } hov) =
      calculate_uei F (mkRec md traj dev vel { comp with angleEntropy := some 1 } hov)) ∧
    (calculate_uei F (mkRec md traj dev vel { comp with initiationTimeMs := none } hov) =
      calculate_uei F (mkRec md traj dev vel { comp with initiationTimeMs := some 200 } hov)) :=
  ⟨rfl, rfl, rfl, rfl, rfl, rfl, rfl, rfl, rfl, rfl, rfl, rfl, rfl, rfl⟩

/-! ### C4 -/

/-- Modelled from the spec: the hover ratio exactly as the claim words it —
`(totalHovers − hoverCounts[selectedResponse]) / totalHovers` computed from
the record's `totalHovers` field, and 0 when that value is 0 or the
`hoverCounts` mapping is absent.  Stated only for comparison against
`hoverRatio`, the computation the code actually performs. -/
def claimHoverRatio (hover : Hover) (sel : String) : ℚ :=
  match hover.hoverCounts with
  | none => 0
  | some hc =>
    let total := hover.totalHovers.getD 0
    if total = 0 then 0 else (total - lookupD hc sel 0) / total

/-- C4, counterexample: with counts `{A: 2, B: 1}` and the record's
`totalHovers` field set to 6, the code computes `(3 − 2)/3 = 1/3` from the
*sum* of the counts, while the claim's formula gives `(6 − 2)/6 = 2/3` from
the `totalHovers` field — the claim's "computed from the record's totalHovers
value" is false. -/
theorem claim4_counterexample :
    hoverRatio cex4Hover "A" = 1 / 3 ∧ claimHoverRatio cex4Hover "A" = 2 / 3 ∧
    hoverRatio cex4Hover "A" ≠ claimHoverRatio cex4Hover "A" := by
  have h1 : hoverRatio cex4Hover "A" = 1 / 3 := by
    norm_num [hoverRatio, lookupD, cex4Hover, List.cons_ne_nil]
  have h2 : claimHoverRatio cex4Hover "A" = 2 / 3 := by
    norm_num [claimHoverRatio, lookupD, cex4Hover]
  refine ⟨h1, h2, ?_⟩
  rw [h1, h2]
  norm_num

/-- C4 (amended): the hover ratio is computed from the *sum* of the
`hoverCounts` values — the record's `totalHovers` field is ignored entirely
(changing it never changes the ratio); the ratio is
`(sum − hoverCounts[selectedResponse]) / sum` when the mapping is non-empty
with positive sum, and 0 when the mapping is absent or empty or the sum is
not positive. -/
theorem claim4_hover_ratio_from_sum (cnts : Option (List (String × ℚ)))
    (t t' : Option ℚ) (sel : String) :
    (hoverRatio ⟨cnts, t⟩ sel = hoverRatio ⟨cnts, t'⟩ sel) ∧
    (cnts = none ∨ cnts = some [] → hoverRatio ⟨cnts, t⟩ sel = 0) ∧
    (∀ hc, cnts = some hc → hc ≠ [] → 0 < (hc.map Prod.snd).sum →
      hoverRatio ⟨cnts, t⟩ sel =
        ((hc.map Prod.snd).sum - lookupD hc sel 0) / (hc.map Prod.snd).sum) ∧
    (∀ hc, cnts = some hc → (hc.map Prod.snd).sum ≤ 0 → hoverRatio ⟨cnts, t⟩ sel = 0) := by
  refine ⟨rfl, ?_, ?_, ?_⟩
  · rintro (rfl | rfl) <;> simp [hoverRatio]
  · rintro hc rfl hne hpos
    simp only [hoverRatio, Option.getD_some]
    rw [if_neg hne, if_pos hpos]
  · rintro hc rfl hle
    simp only [hoverRatio, Option.getD_some]
    split_ifs with h1 h2
    · rfl
    · exact absurd h2 (not_lt.2 hle)
    · rfl

/-- C4, witness: the amended theorem evaluated on the concrete hover data of
the counterexample record. -/
theorem claim4_hover_ratio_from_sum_witness :
    (([("A", (2 : ℚ)), ("B", 1)] ≠ [] ∧
      (0 : ℚ) < ([("A", (2 : ℚ)), ("B", 1)].map Prod.snd).sum) ∧
    hoverRatio ⟨some [("A", 2), ("B", 1)], some 6⟩ "A" =
      (([("A", (2 : ℚ)), ("B", 1)].map Prod.snd).sum - lookupD [("A", 2), ("B", 1)] "A" 0) /
        ([("A", (2 : ℚ)), ("B", 1)].map Prod.snd).sum) := by
  refine ⟨⟨by decide, by norm_num⟩, ?_⟩
  exact (claim4_hover_ratio_from_sum (some [("A", 2), ("B", 1)]) (some 6) none "A").2.2.1
    [("A", 2), ("B", 1)] rfl (by decide) (by norm_num)

/-! ### C5 -/

/-- The history entry that scoring `data` appends. -/
def entryOf (F : RealFns) (data : RecordData) : HistEntry :=
  { sci := calculate_sci F data
    uei := calculate_uei F data
    userId := (data.metadata.getD Metadata.empty).userId.getD ""
    questionId := (data.metadata.getD Metadata.empty).questionId.getD ""
    timestamp := (data.metadata.getD Metadata.empty).timestamp.getD "" }

/-- C5 (confirmed): scoring the same record twice with `update_history=True`
starting from the empty history leaves exactly two entries, and the second
call's SEI is the (rounded) aggregation over the *two-entry* history — the
append happens before the SEI aggregation. -/
theorem claim5_double_score_cumulative (F : RealFns) (data : RecordData) :
    ((calculate_all F data true ((calculate_all F data true []).2)).2).length = 2 ∧
    (calculate_all F data true ((calculate_all F data true []).2)).2 =
      [entryOf F data, entryOf F data] ∧
    (calculate_all F data true ((calculate_all F data true []).2)).1.SEI =
      pyRound2 (calculate_sei F ((data.metadata.getD Metadata.empty).userId)
        [entryOf F data, entryOf F data]) :=
  ⟨rfl, rfl, rfl⟩

/-! ### C6 -/

/-- C6, counterexample: for the *empty-string* user id the claim fails — the
two histories `[]` and `[cex6Entry]` have identical (empty) subsequences of
entries with user id `""`, yet `calculate_sei` with user id `""` skips the
filter entirely (Python truthiness) and returns 50 on the first history and
100 on the second. -/
theorem claim6_counterexample :
    ([cex6Entry].filter (fun e => e.userId == "") =
      ([] : List HistEntry).filter (fun e => e.userId == "")) ∧
    calculate_sei F0 (some "") [cex6Entry] = 100 ∧
    calculate_sei F0 (some "") ([] : List HistEntry) = 50 ∧
    calculate_sei F0 (some "") [cex6Entry] ≠ calculate_sei F0 (some "") [] := by
  have h1 : calculate_sei F0 (some "") [cex6Entry] = 100 := by
    norm_num [calculate_sei, filterHistory, seiAggregate, cex6Entry, F0,
      List.countP, List.countP.go]
  have h2 : calculate_sei F0 (some "") ([] : List HistEntry) = 50 := by
    norm_num [calculate_sei, filterHistory, seiAggregate]
  refine ⟨by decide, h1, h2, ?_⟩
  rw [h1, h2]
  norm_num

/-- C6 (amended): for every *non-empty* user id, SEI is a function of exactly
that user's insertion-ordered subsequence of history entries: two history
states with equal filtered subsequences yield equal SEI. -/
theorem claim6_sei_user_isolated (F : RealFns) (uid : String) (h1 h2 : List HistEntry)
    (hne : uid ≠ "")
    (heq : h1.filter (fun e => e.userId == uid) = h2.filter (fun e => e.userId == uid)) :
    calculate_sei F (some uid) h1 = calculate_sei F (some uid) h2 := by
  simp only [calculate_sei, filterHistory, if_neg hne]
  rw [heq]

/-- C6, witness: two concrete histories agreeing on user `"u"`'s entries but
differing elsewhere give the same SEI for `"u"`. -/
theorem claim6_sei_user_isolated_witness :
    ("u" ≠ "" ∧ cex6H1.filter (fun e => e.userId == "u") =
      cex6H2.filter (fun e => e.userId == "u")) ∧
    calculate_sei F0 (some "u") cex6H1 = calculate_sei F0 (some "u") cex6H2 := by
  have hfe : cex6H1.filter (fun e => e.userId == "u") =
      cex6H2.filter (fun e => e.userId == "u") := by
    have hb1 : ("u" == "u") = true := by decide
    have hb2 : ("x" == "u") = false := by decide
    norm_num [cex6H1, cex6H2, List.filter, hb1, hb2]
  exact ⟨⟨by decide, hfe⟩, claim6_sei_user_isolated F0 "u" cex6H1 cex6H2 (by decide) hfe⟩

/-! ### C7 -/

/-- C7 (confirmed): whenever the user-filtered history sequence (as the code
computes it) is empty, `calculate_sei` returns exactly 50. -/
theorem claim7_empty_history_sei (F : RealFns) (uid : Option String)
    (hist : List HistEntry) (h : filterHistory uid hist = []) :
    calculate_sei F uid hist = 50 := by
  simp only [calculate_sei]
  rw [h]
  simp [seiAggregate]

/-- C7, witness: the empty history with no user filter. -/
theorem claim7_empty_history_sei_witness :
    filterHistory none [] = ([] : List HistEntry) ∧ calculate_sei F0 none [] = 50 :=
  ⟨rfl, claim7_empty_history_sei F0 none [] rfl⟩

/-! ### C8 -/

/-- Overwrite the `initiationTimeMs` leaf of a record, leaving everything
else unchanged. -/
def setInitiation (r : RecordData) (t : ℚ) : RecordData :=
  let m := r.metrics.getD Metrics.empty
  let c := m.complexity.getD Complexity.empty
  { r with metrics := some { m with complexity := some { c with initiationTimeMs := some t } } }

lemma uei_raw_setInitiation (F : RealFns) (r : RecordData) (t : ℚ) :
    uei_raw_score F (setInitiation r t) = uei_raw_score F r := by
  simp [uei_raw_score, setInitiation]

lemma speed_penalty_setInitiation (r : RecordData) (t : ℚ) :
    speed_penalty (setInitiation r t) = if t < 100 then 0.7 else 1 := by
  simp [speed_penalty, setInitiation]

/-- C8 (confirmed): records identical except for `initiationTimeMs`, one
below 100 ms and one at or above 100 ms: the latter's UEI is ≥ the former's —
the 0.7 penalty applies exactly below 100 ms, and the clamp preserves the
inequality (including when the raw engagement is negative, where both clamp
to 0). -/
theorem claim8_initiation_penalty_monotone (F : RealFns) (r : RecordData)
    (t1 t2 : ℚ) (h1 : t1 < 100) (h2 : 100 ≤ t2) :
    calculate_uei F (setInitiation r t1) ≤ calculate_uei F (setInitiation r t2) := by
  have e1 := uei_raw_setInitiation F r t1
  have e2 := uei_raw_setInitiation F r t2
  have p1 : speed_penalty (setInitiation r t1) = 0.7 := by
    rw [speed_penalty_setInitiation, if_pos h1]
  have p2 : speed_penalty (setInitiation r t2) = 1 := by
    rw [speed_penalty_setInitiation, if_neg (not_lt.2 h2)]
  simp only [calculate_uei, e1, e2, p1, p2]
  rcases le_or_lt 0 (uei_raw_score F r) with hw0 | hw0
  · have hm : uei_raw_score F r * 0.7 * 100 ≤ uei_raw_score F r * 1 * 100 := by nlinarith
    exact max_le_max (le_refl 0) (min_le_min (le_refl 100) hm)
  · have hA : uei_raw_score F r * 0.7 * 100 ≤ 0 := by nlinarith
    have hB : min 100 (uei_raw_score F r * 0.7 * 100) ≤ 0 :=
      le_trans (min_le_right _ _) hA
    calc max 0 (min 100 (uei_raw_score F r * 0.7 * 100)) = 0 := max_eq_left hB
      _ ≤ max 0 (min 100 (uei_raw_score F r * 1 * 100)) := le_max_left _ _

/-- C8, witness: the concrete 50 ms versus 150 ms scenario of the spec. -/
theorem claim8_initiation_penalty_monotone_witness :
    ((50 : ℚ) < 100 ∧ (100 : ℚ) ≤ 150) ∧
    calculate_uei F0 (setInitiation cex8Rec 50) ≤ calculate_uei F0 (setInitiation cex8Rec 150) :=
  ⟨⟨by norm_num, by norm_num⟩,
    claim8_initiation_penalty_monotone F0 cex8Rec 50 150 (by norm_num) (by norm_num)⟩

/-! ### C9 -/

/-- C9 (confirmed): on a trajectory with fewer than two points the geometry
analysis returns 0 flips, 0 average deviation, 0 length and smoothness 1. -/
theorem claim9_degenerate_trajectory (F : RealFns) (traj : List TrajPoint)
    (h : traj.length < 2) :
    calculate_trajectory_metrics F traj = ⟨0, 0, 0, 0, 1⟩ := by
  match traj with
  | [] => rfl
  | [p] => rfl
  | p0 :: p1 :: rest =>
    exfalso
    simp only [List.length_cons] at h
    omega

/-- C9, witness: the empty trajectory. -/
theorem claim9_degenerate_trajectory_witness :
    ([] : List TrajPoint).length < 2 ∧
    calculate_trajectory_metrics F0 [] = ⟨0, 0, 0, 0, 1⟩ :=
  ⟨by norm_num, claim9_degenerate_trajectory F0 [] (by norm_num)⟩

/-! ### C10 -/

/-- C10 (confirmed): when the record's metadata has no `userId` (or it is the
empty string), `calculate_all`'s returned SEI is the rounded aggregation over
the whole (unfiltered) updated history; `get_history` with the empty string
or with no user returns all entries; filtering happens only for a non-empty
user id. -/
theorem claim10_empty_userid_unfiltered (F : RealFns) (hist : List HistEntry)
    (data : RecordData)
    (h : (data.metadata.getD Metadata.empty).userId = none ∨
         (data.metadata.getD Metadata.empty).userId = some "") :
    (calculate_all F data true hist).1.SEI =
      pyRound2 (seiAggregate F ((calculate_all F data true hist).2)) ∧
    get_history (some "") hist = hist ∧
    get_history none hist = hist ∧
    ∀ s : String, s ≠ "" → get_history (some s) hist = hist.filter (fun e => e.userId == s) := by
  refine ⟨?_, ?_, rfl, ?_⟩
  · simp only [calculate_all, calculate_sei]
    rcases h with h | h <;> rw [h] <;> simp [filterHistory]
  · simp [get_history, filterHistory]
  · intro s hs
    simp [get_history, filterHistory, hs]

/-- C10, witness: a record with no metadata section scored against a concrete
one-entry history, plus the filtering facts instantiated at user `"A"`. -/
theorem claim10_empty_userid_unfiltered_witness :
    ((cex10Rec.metadata.getD Metadata.empty).userId = none ∨
     (cex10Rec.metadata.getD Metadata.empty).userId = some "") ∧
    (calculate_all F0 cex10Rec true cex10Hist).1.SEI =
      pyRound2 (seiAggregate F0 ((calculate_all F0 cex10Rec true cex10Hist).2)) ∧
    get_history (some "") cex10Hist = cex10Hist ∧
    get_history none cex10Hist = cex10Hist ∧
    get_history (some "A") cex10Hist = cex10Hist.filter (fun e => e.userId == "A") := by
  have T := claim10_empty_userid_unfiltered F0 cex10Hist cex10Rec (Or.inl rfl)
  exact ⟨Or.inl rfl, T.1, T.2.1, T.2.2.1, T.2.2.2 "A" (by decide)⟩

end Anketiraj
